import Mathlib

/-!
Verification of the cross-context messaging, routing, storage and
behavior-monitoring layer of a browser extension for AI-assisted video
learning.  The definitions below are shallow embeddings, translated from
the JavaScript sources of the repository: the message client
(content side), the background message router and its listeners, the
storage manager, the AI service, and the behavior tracker.  The theorems
at the end of the file settle the specification claims.
-/

/-! # JSON values

JSON values as produced (and consumed) by the JS builtins JSON.parse and
JSON.stringify, which the AI gateway of the extension uses for provider
payloads.  Numbers are modelled as rationals: every finite JSON decimal
literal denotes an exact rational (IEEE double rounding is not
modelled; no value in this development depends on it). -/

/-- A JSON number, kept as mantissa and decimal exponent: the value is
mantissa / 10 ^ exponent.  The spelling of the literal is preserved
(no normalization), which is all this development ever compares. -/
structure JsonNumber where
  mantissa : Int
  exponent : Nat
deriving Repr, DecidableEq

inductive Json where
  | null : Json
  | bool : Bool → Json
  | num : JsonNumber → Json
  | str : String → Json
  | arr : List Json → Json
  | obj : List (String × Json) → Json
deriving Repr

/-- The JSON number denoting an integer literal. -/
def Json.int (n : Int) : Json := Json.num ⟨n, 0⟩

/-- Property read on an object value: the JS member access yields the
value of the last binding of the key (later JSON duplicate keys
overwrite earlier ones); on any non-object value the modelled member
access yields undefined (none). -/
def Json.objGet (j : Json) (k : String) : Option Json :=
  match j with
  | .obj fs => ((fs.reverse).find? (fun kv => kv.1 == k)).map (fun kv => kv.2)
  | _ => none

/-- JS truthiness of a value (null, false, 0 and the empty string are
falsy; objects and arrays are always truthy). -/
def Json.truthy : Json → Bool
  | .null => false
  | .bool b => b
  | .num q => q.mantissa != 0
  | .str s => s != ""
  | .arr _ => true
  | .obj _ => true

/-- JS expression a || b on an optional string a (undefined counts as
falsy, so does the empty string). -/
def truthyOrElse (a : Option String) (b : String) : String :=
  match a with
  | some s => if s = "" then b else s
  | none => b

/-! # A model of JSON.parse

A recursive-descent parser for the JSON grammar, over the character
list of the input.  Mutual recursion is bounded by an explicit fuel
parameter; the entry point passes fuel ample for any input of its
length, so the fuel never runs out on inputs the grammar accepts. -/

/-- Whitespace accepted between JSON tokens. -/
def isJsonWs (c : Char) : Bool :=
  c == ' ' || c == '\t' || c == '\n' || c == '\r'

def skipWs : List Char → List Char
  | [] => []
  | c :: rest => if isJsonWs c then skipWs rest else c :: rest

def takeDigits : List Char → (List Char × List Char)
  | [] => ([], [])
  | c :: rest =>
      if c.isDigit then
        let p := takeDigits rest
        (c :: p.1, p.2)
      else ([], c :: rest)

def digitsToNat (ds : List Char) : Nat :=
  ds.foldl (fun a c => a * 10 + (c.toNat - 48)) 0

/-- Value of one hexadecimal digit. -/
def hexVal (c : Char) : Option Nat :=
  if c.isDigit then some (c.toNat - 48)
  else if 'a' ≤ c ∧ c ≤ 'f' then some (c.toNat - 87)
  else if 'A' ≤ c ∧ c ≤ 'F' then some (c.toNat - 55)
  else none

/-- Optional fraction part of a JSON number literal: its digits. -/
def parseFrac : List Char → Option (List Char × List Char)
  | '.' :: r =>
      match takeDigits r with
      | ([], _) => none
      | (ds, rest) => some (ds, rest)
  | cs => some ([], cs)

/-- Optional exponent part of a JSON number literal. -/
def parseExp : List Char → Option (Int × List Char)
  | [] => some (0, [])
  | c :: r =>
      if c == 'e' || c == 'E' then
        let p : Int × List Char :=
          match r with
          | '+' :: rr => (1, rr)
          | '-' :: rr => (-1, rr)
          | _ => (1, r)
        match takeDigits p.2 with
        | ([], _) => none
        | (ds, rest) => some (p.1 * (digitsToNat ds : Int), rest)
      else some (0, c :: r)

/-- A JSON number literal: optional minus, integer part without leading
zeros, optional fraction, optional exponent. -/
def parseNumber (cs : List Char) : Option (JsonNumber × List Char) :=
  let p : Bool × List Char :=
    match cs with
    | '-' :: r => (true, r)
    | _ => (false, cs)
  match takeDigits p.2 with
  | ([], _) => none
  | (intDs, cs2) =>
      if intDs.length > 1 ∧ intDs.head? = some '0' then none
      else
        match parseFrac cs2 with
        | none => none
        | some (fracDs, cs3) =>
          match parseExp cs3 with
          | none => none
          | some (ex, cs4) =>
            let n : Int := (digitsToNat (intDs ++ fracDs) : Int)
            let sn : Int := if p.1 then -n else n
            let exp10 : Int := ex - (fracDs.length : Int)
            let jn : JsonNumber :=
              if 0 ≤ exp10 then ⟨sn * (10 : Int) ^ exp10.toNat, 0⟩
              else ⟨sn, (-exp10).toNat⟩
            some (jn, cs4)

/-- Body of a JSON string literal after the opening quote: content
characters and the remaining input after the closing quote.  Handles
the JSON escapes and rejects raw control characters. -/
def parseStringBody : Nat → List Char → Option (List Char × List Char)
  | 0, _ => none
  | _, [] => none
  | fuel + 1, c :: rest =>
      if c == '"' then some ([], rest)
      else if c == '\\' then
        match rest with
        | [] => none
        | e :: rest2 =>
          let esc : Option (Char × List Char) :=
            if e == '"' then some ('"', rest2)
            else if e == '\\' then some ('\\', rest2)
            else if e == '/' then some ('/', rest2)
            else if e == 'b' then some ('\x08', rest2)
            else if e == 'f' then some ('\x0c', rest2)
            else if e == 'n' then some ('\n', rest2)
            else if e == 'r' then some ('\x0d', rest2)
            else if e == 't' then some ('\t', rest2)
            else if e == 'u' then
              match rest2 with
              | h1 :: h2 :: h3 :: h4 :: rest3 =>
                match hexVal h1, hexVal h2, hexVal h3, hexVal h4 with
                | some v1, some v2, some v3, some v4 =>
                    some (Char.ofNat (((v1 * 16 + v2) * 16 + v3) * 16 + v4), rest3)
                | _, _, _, _ => none
              | _ => none
            else none
          match esc with
          | none => none
          | some (ch, r) =>
            match parseStringBody fuel r with
            | none => none
            | some (s, r2) => some (ch :: s, r2)
      else if c.toNat < 32 then none
      else
        match parseStringBody fuel rest with
        | none => none
        | some (s, r2) => some (c :: s, r2)

mutual

/-- One JSON value, preceded by optional whitespace. -/
def parseValue : Nat → List Char → Option (Json × List Char)
  | 0, _ => none
  | fuel + 1, cs =>
      match skipWs cs with
      | [] => none
      | '\x7b' :: rest =>
          match parseObjFields fuel rest true with
          | none => none
          | some (fs, r) => some (Json.obj fs, r)
      | '[' :: rest =>
          match parseArrElems fuel rest true with
          | none => none
          | some (vs, r) => some (Json.arr vs, r)
      | '"' :: rest =>
          match parseStringBody (rest.length + 1) rest with
          | none => none
          | some (s, r) => some (Json.str (String.mk s), r)
      | 't' :: 'r' :: 'u' :: 'e' :: rest => some (Json.bool true, rest)
      | 'f' :: 'a' :: 'l' :: 's' :: 'e' :: rest => some (Json.bool false, rest)
      | 'n' :: 'u' :: 'l' :: 'l' :: rest => some (Json.null, rest)
      | cs2 =>
          match parseNumber cs2 with
          | none => none
          | some (q, r) => some (Json.num q, r)

/-- Members of an object after the opening brace (when isFirst) or
after a separating comma (when not). -/
def parseObjFields : Nat → List Char → Bool → Option (List (String × Json) × List Char)
  | 0, _, _ => none
  | fuel + 1, cs, isFirst =>
      match skipWs cs with
      | '\x7d' :: rest => if isFirst then some ([], rest) else none
      | '"' :: rest =>
          match parseStringBody (rest.length + 1) rest with
          | none => none
          | some (k, r1) =>
            match skipWs r1 with
            | ':' :: r2 =>
                match parseValue fuel r2 with
                | none => none
                | some (v, r3) =>
                  match skipWs r3 with
                  | ',' :: r4 =>
                      match parseObjFields fuel r4 false with
                      | none => none
                      | some (fs, r5) => some ((String.mk k, v) :: fs, r5)
                  | '\x7d' :: r4 => some ([(String.mk k, v)], r4)
                  | _ => none
            | _ => none
      | _ => none

/-- Elements of an array after the opening bracket (when isFirst) or
after a separating comma (when not). -/
def parseArrElems : Nat → List Char → Bool → Option (List Json × List Char)
  | 0, _, _ => none
  | fuel + 1, cs, isFirst =>
      match skipWs cs with
      | ']' :: rest => if isFirst then some ([], rest) else none
      | cs2 =>
          match parseValue fuel cs2 with
          | none => none
          | some (v, r1) =>
            match skipWs r1 with
            | ',' :: r2 =>
                match parseArrElems fuel r2 false with
                | none => none
                | some (vs, r3) => some (v :: vs, r3)
            | ']' :: r2 => some ([v], r2)
            | _ => none

end

/-- Model of the JS builtin JSON.parse: parse one value and reject
trailing non-whitespace content. -/
def jsonParse (s : String) : Option Json :=
  match parseValue (s.length * 2 + 8) s.data with
  | some (j, rest) => if (skipWs rest).isEmpty then some j else none
  | none => none

example : jsonParse "\x7b\"a\":1\x7d" = some (Json.obj [("a", Json.int 1)]) := rfl

example : jsonParse " [1, 2.5, \"x\", true, null] " =
    some (Json.arr [Json.int 1, Json.num ⟨25, 1⟩, Json.str "x", Json.bool true, Json.null]) := rfl

example : jsonParse "\x7b\"a\":1\x7d trailing" = none := rfl

/-! # A model of JSON.stringify

Used by the AI service only to embed a raw provider payload into an
error message.  Serialization matches the JS builtin for the values
this development constructs (plain decimal number printing;
exponential notation for extreme magnitudes is not modelled). -/

def hexDigitChar (n : Nat) : Char :=
  if n < 10 then Char.ofNat (48 + n) else Char.ofNat (87 + n)

def escJsonChar (c : Char) : String :=
  if c == '"' then "\\\""
  else if c == '\\' then "\\\\"
  else if c == '\n' then "\\n"
  else if c == '\x0d' then "\\r"
  else if c == '\t' then "\\t"
  else if c == '\x08' then "\\b"
  else if c == '\x0c' then "\\f"
  else if c.toNat < 32 then
    "\\u00" ++ String.mk [hexDigitChar (c.toNat / 16), hexDigitChar (c.toNat % 16)]
  else String.mk [c]

def quoteJsonString (s : String) : String :=
  "\"" ++ String.join (s.data.map escJsonChar) ++ "\""

def stripTrailingZeros (ds : List Char) : List Char :=
  (ds.reverse.dropWhile (· == '0')).reverse

/-- Decimal rendering of a JSON number. -/
def JsonNumber.render (n : JsonNumber) : String :=
  let sign := if n.mantissa < 0 then "-" else ""
  let a := n.mantissa.natAbs
  if n.exponent = 0 then sign ++ toString a
  else
    let s0 := (toString a).data
    let s1 := if s0.length ≤ n.exponent then List.replicate (n.exponent + 1 - s0.length) '0' ++ s0 else s0
    let ip := s1.take (s1.length - n.exponent)
    let fp := stripTrailingZeros (s1.drop (s1.length - n.exponent))
    if fp.isEmpty then sign ++ String.mk ip
    else sign ++ String.mk ip ++ "." ++ String.mk fp

mutual

def Json.stringify : Json → String
  | .null => "null"
  | .bool b => if b then "true" else "false"
  | .num n => n.render
  | .str s => quoteJsonString s
  | .arr xs => "[" ++ stringifyElems xs ++ "]"
  | .obj fs => "\x7b" ++ stringifyFields fs ++ "\x7d"

def stringifyElems : List Json → String
  | [] => ""
  | [x] => x.stringify
  | x :: rest => x.stringify ++ "," ++ stringifyElems rest

def stringifyFields : List (String × Json) → String
  | [] => ""
  | [(k, v)] => quoteJsonString k ++ ":" ++ v.stringify
  | (k, v) :: rest => quoteJsonString k ++ ":" ++ v.stringify ++ "," ++ stringifyFields rest

end

/-! # Shared string helpers (regex and encoding models) -/

/-- Is the first list a prefix of the second? -/
def listIsPrefix : List Char → List Char → Bool
  | [], _ => true
  | _ :: _, [] => false
  | p :: ps, c :: cs => p == c && listIsPrefix ps cs

/-- Does the second list contain the first as a contiguous sublist? -/
def listContainsSub (pat : List Char) : List Char → Bool
  | [] => listIsPrefix pat []
  | c :: cs => listIsPrefix pat (c :: cs) || listContainsSub pat cs

/-- Does the string contain the pattern as a substring? -/
def containsSubstr (s pat : String) : Bool :=
  listContainsSub pat.data s.data

/-- ASCII lower-casing of one character, the case folding a
case-insensitive JS regex performs on these patterns. -/
def lowerAscii (c : Char) : Char :=
  if 'A' ≤ c ∧ c ≤ 'Z' then Char.ofNat (c.toNat + 32) else c

/-- Index of the last occurrence of a character (the JS
String.lastIndexOf). -/
def lastIndexOfChar (c : Char) (cs : List Char) : Option Nat :=
  match cs.reverse.findIdx? (· == c) with
  | some i => some (cs.length - 1 - i)
  | none => none

/-- The prefix of the list up to and including the last occurrence of
the character. -/
def takeThroughLast (c : Char) (cs : List Char) : List Char :=
  match lastIndexOfChar c cs with
  | some i => cs.take (i + 1)
  | none => []

/-- Model of a JS regex match with the pattern used by the LLM parse
pipeline: an open brace followed by anything (greedy) up to a close
brace, or else an open bracket up to a close bracket.  The engine scans
start positions left to right, trying the brace alternative before the
bracket alternative; the greedy body extends the match to the last
closing character in the rest of the input. -/
def greedyJsonMatch : List Char → Option (List Char)
  | [] => none
  | c :: rest =>
      if c == '\x7b' && rest.contains '\x7d' then some ('\x7b' :: takeThroughLast '\x7d' rest)
      else if c == '[' && rest.contains ']' then some ('[' :: takeThroughLast ']' rest)
      else greedyJsonMatch rest

/-- The value of one hex-digit pair as a byte. -/
def hexPairVal (h1 h2 : Char) : Option Nat :=
  match hexVal h1, hexVal h2 with
  | some v1, some v2 => some (v1 * 16 + v2)
  | _, _ => none

/-- UTF-8 bytes of a single character. -/
def charUtf8Bytes (c : Char) : List Nat :=
  ((String.mk [c]).toUTF8).toList.map (fun b => b.toNat)

/-- Percent-decoding of a URI component into raw bytes; fails on a
malformed percent escape. -/
def percentDecodeBytes : List Char → Option (List Nat)
  | [] => some []
  | '%' :: h1 :: h2 :: rest =>
      match hexPairVal h1 h2, percentDecodeBytes rest with
      | some b, some bs => some (b :: bs)
      | _, _ => none
  | '%' :: _ => none
  | c :: rest =>
      match percentDecodeBytes rest with
      | some bs => some (charUtf8Bytes c ++ bs)
      | none => none

/-- Model of the JS decodeURIComponent: percent-decode, then interpret
the bytes as UTF-8 (failure models the URIError the builtin throws). -/
def decodeURIComponentOpt (s : String) : Option String :=
  match percentDecodeBytes s.data with
  | some bs => String.fromUTF8? (ByteArray.mk (Array.mk (bs.map (fun n => UInt8.ofNat n))))
  | none => none

def base64Table : List Char :=
  "ABCDEFGHIJKLMNOPQRSTUVWXYZabcdefghijklmnopqrstuvwxyz0123456789+/".data

def base64Digit (n : Nat) : Char := (base64Table.drop n).headD 'A'

/-- Base64 of a group of up to three bytes, with padding. -/
def base64Chunk : List Nat → List Char
  | [b0] => [base64Digit (b0 / 4), base64Digit (b0 % 4 * 16), '=', '=']
  | [b0, b1] => [base64Digit (b0 / 4), base64Digit (b0 % 4 * 16 + b1 / 16), base64Digit (b1 % 16 * 4), '=']
  | [b0, b1, b2] =>
      [base64Digit (b0 / 4), base64Digit (b0 % 4 * 16 + b1 / 16),
       base64Digit (b1 % 16 * 4 + b2 / 64), base64Digit (b2 % 64)]
  | _ => []

/-- Model of the JS btoa over a byte sequence. -/
def base64Encode : List Nat → List Char
  | [] => []
  | b0 :: b1 :: b2 :: rest => base64Chunk [b0, b1, b2] ++ base64Encode rest
  | bs => base64Chunk bs

/-! # AI service (the AI gateway)

Translated from the AIService class: confusion heuristic, request
validation, the Gemini key pre-flight check, and the tolerant parse
pipelines for the LLM and VLM call paths.  The single network
round-trip of a call is abstracted by an oracle argument net,
the JSON body the fetch response would deliver; each issued request is
recorded in a returned list so that claims about when no network
request happens are statements about that list. -/

/-- One HTTP POST issued to the provider.  The query-string assembly
around the key is not modelled; the record keeps the endpoint, the raw
key and the request body. -/
structure FetchCall where
  endpoint : String
  key : String
  body : Json
deriving Repr

def geminiEndpoint : String :=
  "https://generativelanguage.googleapis.com/v1beta/models/gemini-2.5-flash:generateContent"

/-- The build-time placeholder for the Gemini API key. -/
def apiKeyPlaceholder : String := "<YOUR_GEMINI_API_KEY_HERE>"

/-- The optional-chain extraction
data.candidates[0].content.parts[0].text of the provider response,
followed by the source's falsy-to-null coercion: a missing, empty or
non-string text field yields none. -/
def geminiResultText (data : Json) : Option String :=
  match data.objGet "candidates" with
  | some (Json.arr (c0 :: _)) =>
      match c0.objGet "content" with
      | some content =>
          match content.objGet "parts" with
          | some (Json.arr (p0 :: _)) =>
              match p0.objGet "text" with
              | some (Json.str s) => if s = "" then none else some s
              | _ => none
          | _ => none
      | _ => none
  | _ => none

namespace AIService

/-- The degradation value of the LLM parse pipeline: the raw response
text as the simplified field with no definitions. -/
def llmDefault (resultText : String) : Json :=
  Json.obj [("simplified", Json.str resultText), ("definitions", Json.arr [])]

/-- Translation of the parse pipeline at the end of AIService.callLLM:
direct JSON.parse; on failure a greedy brace-or-bracket regex match
parsed again; on failure of both the degradation value. -/
def llmParsePipeline (resultText : String) : Json :=
  match jsonParse resultText with
  | some parsed => parsed
  | none =>
      match greedyJsonMatch resultText.data with
      | some sub =>
          match jsonParse (String.mk sub) with
          | some parsed => parsed
          | none => llmDefault resultText
      | none => llmDefault resultText

/-- The degradation value of the VLM parse pipeline: an empty objects
list. -/
def vlmDefault : Json := Json.obj [("objects", Json.arr [])]

/-- Translation of the parse pipeline at the end of AIService.callVLM:
direct JSON.parse; on failure the substring from the first open brace
to the last close brace (when the latter comes after the former) parsed
again; on failure of both the degradation value. -/
def vlmParsePipeline (resultText : String) : Json :=
  match jsonParse resultText with
  | some parsed => parsed
  | none =>
      let cs := resultText.data
      match cs.findIdx? (· == '\x7b'), lastIndexOfChar '\x7d' cs with
      | some s, some e =>
          if s < e then
            match jsonParse (String.mk ((cs.drop s).take (e + 1 - s))) with
            | some parsed => parsed
            | none => vlmDefault
          else vlmDefault
      | _, _ => vlmDefault

def keyConfigError : String :=
  "Gemini API key not configured. Please set it in the extension popup."

/-- The falsy-or-placeholder pre-flight test on the stored credential. -/
def keyMissing (geminiKey : Option String) : Bool :=
  match geminiKey with
  | none => true
  | some k => k == "" || k == apiKeyPlaceholder

def llmRequestBody (prompt : String) : Json :=
  Json.obj [("contents", Json.arr [Json.obj [("parts",
    Json.arr [Json.obj [("text", Json.str prompt)]])]])]

/-- Translation of AIService.callLLM.  geminiKey is the value stored
under geminiApiKey; net is the JSON body the single fetch would
deliver.  Returns the result together with the network requests
issued. -/
def callLLM (prompt : String) (geminiKey : Option String) (net : Json) :
    Except String Json × List FetchCall :=
  if keyMissing geminiKey then (Except.error keyConfigError, [])
  else
    let call : FetchCall := ⟨geminiEndpoint, truthyOrElse geminiKey "", llmRequestBody prompt⟩
    match geminiResultText net with
    | none => (Except.error ("Gemini LLM error: " ++ Json.stringify net), [call])
    | some resultText => (Except.ok (llmParsePipeline resultText), [call])

/-- Translation of the data-URI handling in AIService.callVLM (and in
the background handleVLMRequest, which duplicates it): a base64 data
URI yields its mime type and payload; a non-base64 data URI is
percent-decoded when possible and then base64-encoded from its UTF-8
bytes (the btoa fallback branch of the source is unreachable for
well-formed strings). -/
def extractImageData (frameDataUrl : String) : Except String (String × String) :=
  let cs := frameDataUrl.data
  let nonBase64 : Except String (String × String) :=
    if cs.take 5 == "data:".data then
      let after := cs.drop 5
      match after.findIdx? (· == ',') with
      | some i =>
          let mime := after.take i
          let inline := after.drop (i + 1)
          if mime.isEmpty || inline.isEmpty then Except.error "Invalid image data URI"
          else
            let inlineStr := String.mk inline
            let decoded := (decodeURIComponentOpt inlineStr).getD inlineStr
            Except.ok (String.mk mime,
              String.mk (base64Encode (decoded.toUTF8.toList.map (fun b => b.toNat))))
      | none => Except.error "Invalid image data URI"
    else Except.error "Invalid image data URI"
  if cs.take 5 == "data:".data then
    let after := cs.drop 5
    match after.findIdx? (· == ';') with
    | some i =>
        let mime := after.take i
        let semiRest := after.drop i
        if !mime.isEmpty && semiRest.take 8 == ";base64,".data then
          Except.ok (String.mk mime, String.mk (semiRest.drop 8))
        else nonBase64
    | none => nonBase64
  else Except.error "Invalid image data URI"

def vlmRequestBody (prompt mime b64 : String) : Json :=
  Json.obj [("contents", Json.arr [Json.obj [("parts", Json.arr [
    Json.obj [("text", Json.str prompt)],
    Json.obj [("inlineData", Json.obj [("mimeType", Json.str mime), ("data", Json.str b64)])]])]])]

/-- Translation of AIService.callVLM: key pre-flight, data-URI
extraction, one fetch, text extraction, tolerant parse. -/
def callVLM (frameDataUrl prompt : String) (geminiKey : Option String) (net : Json) :
    Except String Json × List FetchCall :=
  if keyMissing geminiKey then (Except.error keyConfigError, [])
  else
    match extractImageData frameDataUrl with
    | Except.error e => (Except.error e, [])
    | Except.ok (mime, b64) =>
        let call : FetchCall :=
          ⟨geminiEndpoint, truthyOrElse geminiKey "",
            vlmRequestBody prompt (if mime = "" then "image/jpeg" else mime) b64⟩
        match geminiResultText net with
        | none => (Except.error ("Gemini VLM error: " ++ Json.stringify net), [call])
        | some resultText => (Except.ok (vlmParsePipeline resultText), [call])

end AIService

/-! # Confusion heuristic and request validation of the AI service -/

/-- The Behavior sample as received by DETECT_CONFUSION. -/
structure UserBehavior where
  rewindCount : Nat
  pauseCount : Nat
  currentTimestamp : Rat
  watchedSegments : List (Int × Nat)
deriving Repr

structure ConfusionAssessment where
  isConfused : Bool
  confusionScore : Nat
  recommendation : String
  suggestedIntervention : Option (List String)
deriving Repr, DecidableEq

namespace AIService

/-- Translation of AIService.detectConfusion: the stateless heuristic
over the Behavior sample. -/
def detectConfusion (b : UserBehavior) : ConfusionAssessment :=
  let confusionScore := b.rewindCount * 2 + b.pauseCount
  ⟨decide (3 ≤ confusionScore),
   confusionScore,
   (if 3 ≤ confusionScore then
      "User may be struggling. Offer simplification or step breakdown."
    else "User appears to be following along well."),
   (if 3 ≤ confusionScore then
      some ["vocabulary_simplification", "step_breakdown", "pause_assistance"]
    else none)⟩

def simplifyPrompt (text difficultyLevel : String) : String :=
  "Simplify the following text for a " ++ difficultyLevel ++ " reading level. \n" ++
  "Provide ONLY a valid JSON object with this exact shape (no markdown, no extra text):\n" ++
  "\x7b\n  \"simplified\": \"the simplified text here\",\n  \"definitions\": [\n" ++
  "    \x7b\"term\": \"complex_word\", \"definition\": \"simple explanation\"\x7d\n  ]\n\x7d\n\n" ++
  "Text to simplify: \"" ++ text ++ "\""

/-- Translation of AIService.simplifyVocabulary.  The difficulty level
is optional because the JS default parameter applies only when the
caller passes undefined. -/
def simplifyVocabulary (text : Option String) (difficultyLevel : Option String)
    (geminiKey : Option String) (net : Json) : Except String Json × List FetchCall :=
  match text with
  | none => (Except.error "No text provided for simplification", [])
  | some t =>
      if t = "" || t.trim = "" then (Except.error "No text provided for simplification", [])
      else callLLM (simplifyPrompt t (difficultyLevel.getD "elementary")) geminiKey net

def checklistPrompt (transcript : String) : String :=
  "Analyze this video transcript and create a step-by-step checklist.\n" ++
  "Provide ONLY a valid JSON array with this exact shape (no markdown, no extra text):\n" ++
  "[\n  \x7b\n    \"id\": 1,\n    \"text\": \"Clear and actionable step\",\n" ++
  "    \"timestamp\": 0,\n    \"completed\": false\n  \x7d\n]\n\n" ++
  "Each step should be:\n- Clear and actionable\n- Using simple, concrete language\n" ++
  "- Sequential and logical\n\nTranscript: \"" ++ transcript ++ "\""

/-- Translation of AIService.generateChecklist; the prompt embeds only
the first 2000 characters of the transcript.  The keyFrames argument of
the source is never read beyond logging and is omitted. -/
def generateChecklist (transcript : Option String)
    (geminiKey : Option String) (net : Json) : Except String Json × List FetchCall :=
  match transcript with
  | none => (Except.error "No transcript provided for checklist generation", [])
  | some t =>
      if t = "" || t.trim = "" then
        (Except.error "No transcript provided for checklist generation", [])
      else callLLM (checklistPrompt (String.mk (t.data.take 2000))) geminiKey net

/-- Translation of AIService.analyzeFrame: frame validation, then the
VLM call with the default prompt when none is given. -/
def analyzeFrame (frameDataUrl : Option String) (prompt : Option String)
    (geminiKey : Option String) (net : Json) : Except String Json × List FetchCall :=
  match frameDataUrl with
  | none => (Except.error "No frame data provided", [])
  | some u =>
      if u = "" then (Except.error "No frame data provided", [])
      else callVLM u (prompt.getD "Identify all tools and objects in this video frame.") geminiKey net

end AIService

/-! # The extraction routine as the specification words it

A second definition of the LLM result extraction, following the
specification text rather than the source: on a failed direct parse it
scans for the first balanced JSON object or array substring and parses
that, before degrading to the default variant.  It exists to be
compared with AIService.llmParsePipeline. -/

/-- The span from an opening bracket to the closer that balances it
(depth counting over that bracket kind). -/
def balancedSpan (openc closec : Char) : Nat → List Char → List Char → Option (List Char)
  | _, _, [] => none
  | depth, acc, c :: rest =>
      if c == closec then
        if depth = 1 then some (acc ++ [c])
        else balancedSpan openc closec (depth - 1) (acc ++ [c]) rest
      else if c == openc then balancedSpan openc closec (depth + 1) (acc ++ [c]) rest
      else balancedSpan openc closec depth (acc ++ [c]) rest

/-- From the specification: the first balanced JSON object or array
substring of the text. -/
def firstBalancedJson : List Char → Option (List Char)
  | [] => none
  | c :: rest =>
      if c == '\x7b' then balancedSpan '\x7b' '\x7d' 1 [c] rest
      else if c == '[' then balancedSpan '[' ']' 1 [c] rest
      else firstBalancedJson rest

/-- From the specification: full parse, else parse of the first
balanced JSON substring, else the degradation value. -/
def specLLMExtraction (resultText : String) : Json :=
  match jsonParse resultText with
  | some parsed => parsed
  | none =>
      match firstBalancedJson resultText.data with
      | some sub =>
          match jsonParse (String.mk sub) with
          | some parsed => parsed
          | none => AIService.llmDefault resultText
      | none => AIService.llmDefault resultText

/-! # Storage manager

Translated from the StorageManager class over chrome.storage.sync,
modelled as an association list of top-level keys.  A write replaces
the value of its key wholesale, as the chrome API does for each
top-level key of the object passed to set. -/

namespace StorageManager

/-- The chrome.storage.sync area: top-level keys with their values. -/
abbrev Store := List (String × Json)

/-- Lookup of one stored field among unique keys. -/
def fieldGet (fs : List (String × Json)) (k : String) : Option Json :=
  (fs.find? (fun kv => kv.1 == k)).map (fun kv => kv.2)

/-- Property assignment on an object: replace the binding of the key in
place, or append a new binding. -/
def setField : List (String × Json) → String → Json → List (String × Json)
  | [], k, v => [(k, v)]
  | (k0, v0) :: rest, k, v =>
      if k0 == k then (k, v) :: rest else (k0, v0) :: setField rest k v

/-- Translation of StorageManager.getSetting. -/
def getSetting (s : Store) (key : String) : Option Json :=
  fieldGet s key

/-- Translation of StorageManager.updateSetting: a full replace of the
value stored under the key. -/
def updateSetting (s : Store) (key : String) (value : Json) : Store :=
  setField s key value

/-- Translation of StorageManager.getAllSettings. -/
def getAllSettings (s : Store) : Json := Json.obj s

/-- The preferences member of the source defaults object. -/
def defaultPreferences : Json :=
  Json.obj [("simplificationLevel", Json.str "elementary"),
            ("highlightColor", Json.str "#FFD700"),
            ("highlightOpacity", Json.num ⟨3, 1⟩),
            ("pauseDuration", Json.int 3),
            ("proactiveAssistance", Json.bool true),
            ("uiPosition", Json.str "right"),
            ("fontSize", Json.str "medium")]

/-- The userData member of the source defaults object. -/
def defaultUserData : Json :=
  Json.obj [("totalVideosWatched", Json.int 0),
            ("totalInterventions", Json.int 0),
            ("preferredInterventions", Json.arr []),
            ("lastUsed", Json.null)]

/-- Translation of StorageManager.isFeatureEnabled: the optional chain
on the stored features object with the nullish default true. -/
def isFeatureEnabled (s : Store) (featureName : String) : Json :=
  match getSetting s "features" with
  | none => Json.bool true
  | some fv =>
      match fv.objGet featureName with
      | none => Json.bool true
      | some Json.null => Json.bool true
      | some v => v

/-- The stored features object coerced like the source expression
features or else the empty object.  Every write path of the code
stores an object under this key; a stored non-object value is coerced
to the empty object here. -/
def featuresFields (s : Store) : List (String × Json) :=
  match getSetting s "features" with
  | some (Json.obj fs) => fs
  | _ => []

/-- Translation of StorageManager.toggleFeature: negate the JS
truthiness of the current binding (a missing feature reads as
undefined, so its first toggle stores true), store the features object
back, and return the new value. -/
def toggleFeature (s : Store) (featureName : String) : Bool × Store :=
  let fs := featuresFields s
  let old : Option Json := fieldGet fs featureName
  let newVal : Bool := !(match old with | some v => v.truthy | none => false)
  let fs2 := setField fs featureName (Json.bool newVal)
  (newVal, updateSetting s "features" (Json.obj fs2))

/-- Translation of StorageManager.getPreferences. -/
def getPreferences (s : Store) : Json :=
  match getSetting s "preferences" with
  | some v => if v.truthy then v else defaultPreferences
  | none => defaultPreferences

/-- Translation of StorageManager.recordInteraction.  The numeric
interventions counter is read as its mantissa (the code only ever
stores integers there); now models Date.now(). -/
def recordInteraction (s : Store) (interactionType : String) (now : Int) : Store :=
  let userData : Json :=
    match getSetting s "userData" with
    | some v => if v.truthy then v else defaultUserData
    | none => defaultUserData
  let fs : List (String × Json) := match userData with | Json.obj fs => fs | _ => []
  let ti : Int := (match fieldGet fs "totalInterventions" with
    | some (Json.num n) => n.mantissa
    | _ => 0) + 1
  let prior : List Json := match fieldGet fs "preferredInterventions" with
    | some (Json.arr xs) => xs
    | _ => []
  let entry : Json := Json.obj [("type", Json.str interactionType), ("timestamp", Json.int now)]
  let fs2 := setField (setField (setField fs "totalInterventions" (Json.int ti))
    "lastUsed" (Json.int now)) "preferredInterventions" (Json.arr (prior ++ [entry]))
  updateSetting s "userData" (Json.obj fs2)

end StorageManager

/-! # Message router and background listeners

Translated from the MessageRouter class and the background service
worker listeners.  A request is one of the ten operation types the
handlers table recognizes, or an unknown type carrying its type string;
dispatch on an unknown type raises the error the source throws, and
each listener normalizes any raised error into a failure response. -/

/-- A request envelope already destructured into the fields each
handler reads from data. -/
inductive Request where
  | analyzeFrame (frameDataUrl imageData prompt : Option String) (frameWidth frameHeight : Option Int)
  | testGemini (frameDataUrl imageData prompt : Option String) (frameWidth frameHeight : Option Int)
  | simplifyText (text : Option String) (level : Option String)
  | generateChecklist (transcript : Option String) (keyFrames : Option Json)
  | detectConfusion (userBehavior : UserBehavior)
  | extensionReady (url : Option String)
  | getSettings (keys : Option (List String))
  | updateSettings (key : String) (value : Json)
  | toggleFeature (featureName : String)
  | recordInteraction (interactionType : String)
  | unknown (type : String)

/-- A response envelope as built by sendResponse in the background
listeners. -/
structure Response where
  success : Bool
  data : Option Json
  error : Option String
deriving Repr

/-- The world a dispatched request runs against: the storage area, the
JSON body the single network round-trip of the call would deliver, and
the current clock. -/
structure Env where
  store : StorageManager.Store
  net : Json
  now : Int

/-- The Gemini credential read from storage.  The popup stores a
string; a stored non-string credential is not modelled. -/
def storedGeminiKey (s : StorageManager.Store) : Option String :=
  match StorageManager.getSetting s "geminiApiKey" with
  | some (Json.str k) => some k
  | _ => none

/-- The last characters of a string (JS slice with negative start). -/
def takeLastStr (n : Nat) (s : String) : String :=
  String.mk ((s.data.reverse.take n).reverse)

def confusionAssessmentToJson (a : ConfusionAssessment) : Json :=
  Json.obj [("isConfused", Json.bool a.isConfused),
            ("confusionScore", Json.int (a.confusionScore : Int)),
            ("recommendation", Json.str a.recommendation),
            ("suggestedIntervention",
              match a.suggestedIntervention with
              | some xs => Json.arr (xs.map Json.str)
              | none => Json.null)]

namespace MessageRouter

/-- Translation of MessageRouter.handleTestGemini: report whether a
Gemini key is present in storage, with a preview. -/
def handleTestGemini (s : StorageManager.Store) : Json :=
  match storedGeminiKey s with
  | some k =>
      if k ≠ "" then
        Json.obj [("geminiKeyPresent", Json.bool true),
                  ("geminiKeyPreview", Json.str
                    (if 8 < k.length then String.mk (k.data.take 4) ++ "…" ++ takeLastStr 4 k
                     else "****"))]
      else Json.obj [("geminiKeyPresent", Json.bool false), ("geminiKeyPreview", Json.null)]
  | none => Json.obj [("geminiKeyPresent", Json.bool false), ("geminiKeyPreview", Json.null)]

/-- Translation of MessageRouter.handleGetSettings: requested keys are
looked up one by one (a key with no stored value yields an undefined
property, dropped on response serialization); with no keys the whole
area is returned. -/
def handleGetSettings (keys : Option (List String)) (s : StorageManager.Store) : Json :=
  match keys with
  | some ks =>
      Json.obj (ks.filterMap (fun k => (StorageManager.getSetting s k).map (fun v => (k, v))))
  | none => StorageManager.getAllSettings s

/-- The simplification level the SIMPLIFY_TEXT handler passes on: the
request level when truthy, else the stored preference (none models
passing undefined, which lets the AI service default apply). -/
def targetLevel (level : Option String) (s : StorageManager.Store) : Option String :=
  let prefLevel : Option String :=
    match (StorageManager.getPreferences s).objGet "simplificationLevel" with
    | some (Json.str l) => some l
    | _ => none
  match level with
  | some l => if l = "" then prefLevel else some l
  | none => prefLevel

/-- Translation of MessageRouter.handleMessage: dispatch on the request
type; an unknown type raises the error the source throws, and handler
errors propagate to the caller unchanged. -/
def handleMessage (req : Request) (env : Env) : Except String (Json × StorageManager.Store) :=
  match req with
  | .analyzeFrame frameDataUrl _ prompt _ _ =>
      match (AIService.analyzeFrame frameDataUrl prompt (storedGeminiKey env.store) env.net).1 with
      | .ok j => .ok (j, env.store)
      | .error e => .error e
  | .testGemini _ _ _ _ _ => .ok (handleTestGemini env.store, env.store)
  | .simplifyText text level =>
      match (AIService.simplifyVocabulary text (targetLevel level env.store)
              (storedGeminiKey env.store) env.net).1 with
      | .ok j => .ok (j, env.store)
      | .error e => .error e
  | .generateChecklist transcript _ =>
      match (AIService.generateChecklist transcript (storedGeminiKey env.store) env.net).1 with
      | .ok j => .ok (j, env.store)
      | .error e => .error e
  | .detectConfusion b =>
      .ok (confusionAssessmentToJson (AIService.detectConfusion b), env.store)
  | .extensionReady url =>
      let store2 :=
        match url with
        | some u =>
            if u ≠ "" then StorageManager.recordInteraction env.store "extension_ready" env.now
            else env.store
        | none => env.store
      .ok (Json.obj [("received", Json.bool true)], store2)
  | .getSettings keys => .ok (handleGetSettings keys env.store, env.store)
  | .updateSettings key value =>
      .ok (Json.obj [("success", Json.bool true)], StorageManager.updateSetting env.store key value)
  | .toggleFeature featureName =>
      let p := StorageManager.toggleFeature env.store featureName
      .ok (Json.obj [("featureName", Json.str featureName), ("enabled", Json.bool p.1)], p.2)
  | .recordInteraction interactionType =>
      .ok (Json.obj [("success", Json.bool true)],
        StorageManager.recordInteraction env.store interactionType env.now)
  | .unknown t => .error ("Unknown message type: " ++ t)

end MessageRouter

namespace Background

/-- The strict default prompt handleVLMRequest builds when the request
carries none. -/
def vlmDefaultPrompt (imgW imgH : String) : String :=
  "You will be given an image. Output a single valid JSON object and nothing else. " ++
  "The JSON MUST have this exact shape:\n\x7b\n  \"objects\": [\n    \x7b\n      \"name\": \"...\",\n" ++
  "      \"confidence\": 0.0,\n      \"boundingBox\": \x7b \"x\": 0, \"y\": 0, \"width\": 0, \"height\": 0 \x7d,\n" ++
  "      \"description\": \"...\"\n    \x7d\n  ],\n  \"imageWidth\": " ++ imgW ++
  ",\n  \"imageHeight\": " ++ imgH ++ "\n\x7d\n" ++
  "Provide bounding box coordinates in PIXELS relative to the image with width " ++ imgW ++
  " and height " ++ imgH ++ ". If no objects are found, return \x7b\"objects\": [], \"imageWidth\": " ++
  imgW ++ ", \"imageHeight\": " ++ imgH ++ "\x7d."

/-- The parse attempt of handleVLMRequest: direct parse, else the
substring from the first open brace to the last close brace; unlike the
AI service pipeline it has no default, a failed parse stays none. -/
def bgVlmParse (resultText : String) : Option Json :=
  match jsonParse resultText with
  | some parsed => some parsed
  | none =>
      let cs := resultText.data
      match cs.findIdx? (· == '\x7b'), lastIndexOfChar '\x7d' cs with
      | some s, some e =>
          if s < e then jsonParse (String.mk ((cs.drop s).take (e + 1 - s)))
          else none
      | _, _ => none

/-- JS a || b on two optional strings (empty strings are falsy). -/
def orTruthy (a b : Option String) : Option String :=
  match a with
  | some s => if s = "" then b else some s
  | none => b

/-- Translation of the background handleVLMRequest: image guard, data
URI extraction, key with placeholder fallback, pre-flight check, one
fetch, and the raw-text degradation.  The side message it posts to the
sender tab is not modelled; the returned record is the value the
listeners consume. -/
def handleVLMRequest (frameDataUrl imageData prompt : Option String)
    (frameWidth frameHeight : Option Int) (st : StorageManager.Store) (net : Json) :
    Response × List FetchCall :=
  let imageDataVal := orTruthy frameDataUrl imageData
  match imageDataVal with
  | none => (⟨false, none, some "No image data provided"⟩, [])
  | some u =>
      if u = "" then (⟨false, none, some "No image data provided"⟩, [])
      else
        match AIService.extractImageData u with
        | .error e => (⟨false, none, some e⟩, [])
        | .ok (mime, b64) =>
            let geminiKey :=
              match storedGeminiKey st with
              | some k => if k ≠ "" then k else apiKeyPlaceholder
              | none => apiKeyPlaceholder
            if geminiKey = "" ∨ geminiKey = apiKeyPlaceholder then
              (⟨false, none, some AIService.keyConfigError⟩, [])
            else
              let imgW := match frameWidth with
                | some w => if w ≠ 0 then toString w else "UNKNOWN_WIDTH"
                | none => "UNKNOWN_WIDTH"
              let imgH := match frameHeight with
                | some h => if h ≠ 0 then toString h else "UNKNOWN_HEIGHT"
                | none => "UNKNOWN_HEIGHT"
              let promptVal := truthyOrElse prompt (vlmDefaultPrompt imgW imgH)
              let call : FetchCall :=
                ⟨geminiEndpoint, geminiKey,
                  AIService.vlmRequestBody promptVal (if mime = "" then "image/jpeg" else mime) b64⟩
              match geminiResultText net with
              | none => (⟨false, none, some ("Gemini VLM error: " ++ Json.stringify net)⟩, [call])
              | some resultText =>
                  match bgVlmParse resultText with
                  | some parsed => (⟨true, some parsed, none⟩, [call])
                  | none => (⟨true, some (Json.str resultText), none⟩, [call])

/-- Translation of the chrome.runtime.onMessage listener of the
background script: ANALYZE_FRAME and TEST_GEMINI are special-cased to
handleVLMRequest; everything else goes to the router, whose outcome is
normalized into a response envelope. -/
def onMessage (req : Request) (env : Env) : Response × StorageManager.Store :=
  match req with
  | .analyzeFrame f i p w h =>
      let r := handleVLMRequest f i p w h env.store env.net
      if r.1.success then (⟨true, r.1.data, none⟩, env.store)
      else (⟨false, none, some (truthyOrElse r.1.error "VLM failed")⟩, env.store)
  | .testGemini f i p w h =>
      let r := handleVLMRequest f i p w h env.store env.net
      if r.1.success then (⟨true, r.1.data, none⟩, env.store)
      else (⟨false, none, some (truthyOrElse r.1.error "VLM failed")⟩, env.store)
  | _ =>
      match MessageRouter.handleMessage req env with
      | .ok (d, st) => (⟨true, some d, none⟩, st)
      | .error e => (⟨false, none, some e⟩, env.store)

/-- A message on the long-lived client port, as posted back by the
background onConnect listener: the requestId of the request it answers
with the outcome fields. -/
structure PortMsg where
  requestId : String
  success : Bool
  data : Option Json
  error : Option String
deriving Repr

/-- Translation of the port message listener inside
chrome.runtime.onConnect: the same special-case and routing as
onMessage, but the outcome is posted back tagged with the requestId
taken from the request payload. -/
def onPortMessage (req : Request) (requestId : String) (env : Env) :
    PortMsg × StorageManager.Store :=
  match req with
  | .analyzeFrame f i p w h =>
      let r := handleVLMRequest f i p w h env.store env.net
      (⟨requestId, r.1.success, r.1.data, r.1.error⟩, env.store)
  | .testGemini f i p w h =>
      let r := handleVLMRequest f i p w h env.store env.net
      (⟨requestId, r.1.success, r.1.data, r.1.error⟩, env.store)
  | _ =>
      match MessageRouter.handleMessage req env with
      | .ok (d, st) => (⟨requestId, true, some d, none⟩, st)
      | .error e => (⟨requestId, false, none, some e⟩, env.store)

end Background

/-! # Behavior tracker

Translated from the BehaviorTracker class: the Behavior sample it
mutates, the playback event handlers, and the periodic confusion
check.  The segment-visit map is a total function from segment starts
to visit counts (absent keys read as zero). -/

namespace BehaviorTracker

structure BehaviorData where
  rewindCount : Nat
  pauseCount : Nat
  playbackSpeedChanges : Nat
  segmentWatchTimes : Int → Nat
  lastPosition : Rat

/-- The rewind threshold in seconds; the source keeps it beside the
counters and never mutates it. -/
def rewindThreshold : Rat := 5

/-- The payload of an emitted rewind event. -/
structure RewindEv where
  fromPos : Rat
  toPos : Rat
  count : Nat

/-- Translation of BehaviorTracker.handleTimeUpdate: a jump back by
more than the threshold counts and emits a rewind; the 10-second
bucket of the new position is always tallied and the last position
updated. -/
def handleTimeUpdate (currentTime : Rat) (d : BehaviorData) :
    Option RewindEv × BehaviorData :=
  let timeDiff := currentTime - d.lastPosition
  let p : Option RewindEv × BehaviorData :=
    if timeDiff < -rewindThreshold then
      (some ⟨d.lastPosition, currentTime, d.rewindCount + 1⟩,
       ⟨d.rewindCount + 1, d.pauseCount, d.playbackSpeedChanges,
        d.segmentWatchTimes, d.lastPosition⟩)
    else (none, d)
  let segment : Int := ⌊currentTime / 10⌋ * 10
  (p.1,
   ⟨p.2.rewindCount, p.2.pauseCount, p.2.playbackSpeedChanges,
    fun s => if s = segment then p.2.segmentWatchTimes s + 1 else p.2.segmentWatchTimes s,
    currentTime⟩)

/-- The payload of an emitted pause event. -/
structure PauseEv where
  time : Rat
  count : Nat

/-- Translation of BehaviorTracker.handlePause. -/
def handlePause (currentTime : Rat) (d : BehaviorData) : PauseEv × BehaviorData :=
  (⟨currentTime, d.pauseCount + 1⟩,
   ⟨d.rewindCount, d.pauseCount + 1, d.playbackSpeedChanges, d.segmentWatchTimes, d.lastPosition⟩)

/-- Translation of BehaviorTracker.handleRateChange. -/
def handleRateChange (rate : Rat) (d : BehaviorData) : (Rat × Nat) × BehaviorData :=
  ((rate, d.playbackSpeedChanges + 1),
   ⟨d.rewindCount, d.pauseCount, d.playbackSpeedChanges + 1, d.segmentWatchTimes, d.lastPosition⟩)

/-- The payload of an emitted confusion-detected event. -/
structure ConfusionEv where
  rewindCount : Nat
  pauseCount : Nat
  currentTimestamp : Rat
  watchedSegments : Int → Nat

/-- Translation of BehaviorTracker.resetCounters. -/
def resetCounters (d : BehaviorData) : BehaviorData :=
  ⟨0, 0, 0, d.segmentWatchTimes, d.lastPosition⟩

/-- Translation of BehaviorTracker.checkForConfusion, the body of the
periodic tick: on the trip condition, emit the event carrying the
counts, the current position and the segment-visit map, then reset the
counters. -/
def checkForConfusion (currentTime : Rat) (d : BehaviorData) :
    Option ConfusionEv × BehaviorData :=
  if 3 ≤ d.rewindCount ∨ 5 ≤ d.pauseCount then
    (some ⟨d.rewindCount, d.pauseCount, currentTime, d.segmentWatchTimes⟩, resetCounters d)
  else (none, d)

end BehaviorTracker

/-! # Message client

Translated from the MessageClient class of the content side: the
response-matching listener of sendViaPort, and the retry-then-fallback
control flow of sendViaMessage.  Real time (the 45 second and 15 second
port timeouts) is outside the model; what is modelled is which of the
incoming port messages settles the pending promise, and the orderly
trace of transport actions the retry loop performs. -/

namespace MessageClient

def portErrDefault : String := "Unknown error from port"

/-- How a pending sendViaPort promise ends. -/
inductive Settlement where
  | resolved (data : Option Json)
  | rejected (errMessage : String)
deriving Repr

/-- How the sendViaPort onMessage listener settles the promise from
one matching message: resolve with its data on success, else reject
with its error (or the default when that is falsy). -/
def settleOfMsg (m : Background.PortMsg) : Settlement :=
  if m.success then .resolved m.data
  else .rejected (truthyOrElse m.error portErrDefault)

/-- Translation of the onMessage listener of sendViaPort over the
stream of messages arriving on the port: a null message or one bearing
a different requestId returns without touching the promise; the first
message bearing the generated requestId settles it, and the listener is
removed, so later messages are irrelevant. -/
def portSettle (requestId : String) : List (Option Background.PortMsg) → Option Settlement
  | [] => none
  | none :: rest => portSettle requestId rest
  | some m :: rest =>
      if m.requestId = requestId then some (settleOfMsg m)
      else portSettle requestId rest

/-- The first message of the stream bearing the requestId. -/
def firstMatch (requestId : String) : List (Option Background.PortMsg) → Option Background.PortMsg
  | [] => none
  | none :: rest => firstMatch requestId rest
  | some m :: rest =>
      if m.requestId = requestId then some m else firstMatch requestId rest

/-- The outcome one sendMessage attempt reports to its callback:
either chrome.runtime.lastError with its message, or a response (null
when the responder sent nothing). -/
inductive SendOutcome where
  | lastError (msg : String)
  | reply (resp : Option Response)

/-- Observable transport actions of sendViaMessage. -/
inductive TransportEv where
  | send
  | backoff (ms : Nat)
  | portFallback
deriving Repr, DecidableEq

def maxRetries : Nat := 3

def baseDelay : Nat := 150

/-- The transient-error test of the source, a case-insensitive regex
over the lastError message. -/
def isTransientErr (msg : String) : Bool :=
  let m := String.mk (msg.data.map lowerAscii)
  containsSubstr m "extension context invalidated" ||
  containsSubstr m "the message port closed before a response was received"

/-- Translation of the attempt loop of sendViaMessage: each list entry
is what the corresponding sendMessage attempt reports; fallback is the
outcome connectTransport would deliver if invoked.  Returns the trace
of transport actions alongside the final settlement.  A transient
error with tries left schedules a backoff of baseDelay times the
attempt number and recurses; otherwise the port fallback is tried
once, whose failure surfaces the original error message. -/
def attemptRun : List SendOutcome → Nat → Except String (Option Json) →
    List TransportEv × Except String (Option Json)
  | [], _, _ => ([], Except.error "no outcome modelled")
  | o :: rest, triesLeft, fallback =>
      match o with
      | .lastError msg =>
          if isTransientErr msg ∧ 0 < triesLeft then
            let r := attemptRun rest (triesLeft - 1) fallback
            (TransportEv.send :: TransportEv.backoff (baseDelay * (maxRetries - triesLeft + 1)) :: r.1,
             r.2)
          else
            ([TransportEv.send, TransportEv.portFallback],
             match fallback with
             | .ok d => .ok d
             | .error _ => .error msg)
      | .reply none => ([TransportEv.send], Except.error "Unknown error")
      | .reply (some r) =>
          if r.success then ([TransportEv.send], Except.ok r.data)
          else ([TransportEv.send], Except.error (truthyOrElse r.error "Unknown error"))

/-- Translation of sendViaMessage: the attempt loop started with the
full retry budget. -/
def sendViaMessage (outcomes : List SendOutcome) (fallback : Except String (Option Json)) :
    List TransportEv × Except String (Option Json) :=
  attemptRun outcomes maxRetries fallback

end MessageClient

/-- The provider response text used as the concrete counterexample
input: two complete JSON objects separated by prose. -/
def cegText : String := "see \x7b\"a\":1\x7d and \x7b\"b\":2\x7d"

/-! # Helper lemmas -/

theorem fieldGet_setField_self (fs : List (String × Json)) (k : String) (v : Json) :
    StorageManager.fieldGet (StorageManager.setField fs k v) k = some v := by
  induction fs with
  | nil => simp [StorageManager.setField, StorageManager.fieldGet]
  | cons kv rest ih =>
      by_cases h : kv.1 == k
      · simp [StorageManager.setField, StorageManager.fieldGet, h]
      · simpa [StorageManager.setField, StorageManager.fieldGet, h] using ih

theorem objGet_eq_none_of_fieldGet_none (fs : List (String × Json)) (k : String)
    (h : StorageManager.fieldGet fs k = none) : (Json.obj fs).objGet k = none := by
  simp only [StorageManager.fieldGet, Option.map_eq_none', List.find?_eq_none] at h
  simp only [Json.objGet, Option.map_eq_none', List.find?_eq_none]
  intro kv hkv
  exact h kv (List.mem_reverse.mp hkv)

/-! # Claim theorems -/

/-- C3: for every Behavior sample, detectConfusion returns
confusionScore = rewindCount * 2 + pauseCount, isConfused exactly when
the score reaches 3, and the fixed intervention list exactly when
confused (null otherwise); in particular rewindCount 3 pauseCount 0
gives isConfused true with score 6, and rewindCount 0 pauseCount 2
gives isConfused false with score 2. -/
theorem claim_C3_detect_confusion :
    (∀ b : UserBehavior,
      (AIService.detectConfusion b).confusionScore = b.rewindCount * 2 + b.pauseCount ∧
      ((AIService.detectConfusion b).isConfused = true ↔ 3 ≤ b.rewindCount * 2 + b.pauseCount) ∧
      (3 ≤ b.rewindCount * 2 + b.pauseCount →
        (AIService.detectConfusion b).suggestedIntervention =
          some ["vocabulary_simplification", "step_breakdown", "pause_assistance"]) ∧
      (b.rewindCount * 2 + b.pauseCount < 3 →
        (AIService.detectConfusion b).suggestedIntervention = none)) ∧
    AIService.detectConfusion ⟨3, 0, 0, []⟩ =
      ⟨true, 6, "User may be struggling. Offer simplification or step breakdown.",
       some ["vocabulary_simplification", "step_breakdown", "pause_assistance"]⟩ ∧
    AIService.detectConfusion ⟨0, 2, 0, []⟩ =
      ⟨false, 2, "User appears to be following along well.", none⟩ := by
  refine ⟨fun b => ⟨rfl, ?_, fun h => ?_, fun h => ?_⟩, rfl, rfl⟩
  · simp [AIService.detectConfusion]
  · simp [AIService.detectConfusion, h]
  · simp [AIService.detectConfusion, Nat.not_le.mpr h]

/-- Witness for C3 at the two concrete samples of the claim. -/
theorem claim_C3_detect_confusion_witness :
    (AIService.detectConfusion ⟨3, 0, 0, []⟩).suggestedIntervention =
      some ["vocabulary_simplification", "step_breakdown", "pause_assistance"] ∧
    (AIService.detectConfusion ⟨0, 2, 0, []⟩).suggestedIntervention = none :=
  ⟨(claim_C3_detect_confusion.1 ⟨3, 0, 0, []⟩).2.2.1 (by decide),
   (claim_C3_detect_confusion.1 ⟨0, 2, 0, []⟩).2.2.2 (by decide)⟩

/-- C4: on a periodic confusion check, when rewindCount is at least 3
or pauseCount at least 5, the confusion-detected event is emitted
carrying the counts, the current position and the full segment-visit
map, after which the rewind, pause and speed counters are zero while
the segment map and last position are unchanged; otherwise nothing in
the sample changes. -/
theorem claim_C4_confusion_tick (t : Rat) (d : BehaviorTracker.BehaviorData) :
    ((3 ≤ d.rewindCount ∨ 5 ≤ d.pauseCount) →
      (BehaviorTracker.checkForConfusion t d).1 =
        some ⟨d.rewindCount, d.pauseCount, t, d.segmentWatchTimes⟩ ∧
      (BehaviorTracker.checkForConfusion t d).2.rewindCount = 0 ∧
      (BehaviorTracker.checkForConfusion t d).2.pauseCount = 0 ∧
      (BehaviorTracker.checkForConfusion t d).2.playbackSpeedChanges = 0 ∧
      (BehaviorTracker.checkForConfusion t d).2.segmentWatchTimes = d.segmentWatchTimes ∧
      (BehaviorTracker.checkForConfusion t d).2.lastPosition = d.lastPosition) ∧
    (¬(3 ≤ d.rewindCount ∨ 5 ≤ d.pauseCount) →
      (BehaviorTracker.checkForConfusion t d).1 = none ∧
      (BehaviorTracker.checkForConfusion t d).2 = d) := by
  constructor
  · intro h
    simp [BehaviorTracker.checkForConfusion, BehaviorTracker.resetCounters, h]
  · intro h
    simp [BehaviorTracker.checkForConfusion, h]

/-- Witness for C4: a tripped sample (3 rewinds) resets its counters
but keeps the segment map; an untripped one (2 rewinds, 4 pauses) is
untouched. -/
theorem claim_C4_confusion_tick_witness :
    (BehaviorTracker.checkForConfusion 0 ⟨3, 1, 7, fun _ => 2, 30⟩).2.rewindCount = 0 ∧
    (BehaviorTracker.checkForConfusion 0 ⟨3, 1, 7, fun _ => 2, 30⟩).2.segmentWatchTimes =
      (fun _ => 2) ∧
    (BehaviorTracker.checkForConfusion 0 ⟨2, 4, 7, fun _ => 2, 30⟩).2 = ⟨2, 4, 7, fun _ => 2, 30⟩ :=
  ⟨((claim_C4_confusion_tick 0 ⟨3, 1, 7, fun _ => 2, 30⟩).1 (Or.inl (by decide))).2.1,
   ((claim_C4_confusion_tick 0 ⟨3, 1, 7, fun _ => 2, 30⟩).1 (Or.inl (by decide))).2.2.2.2.1,
   ((claim_C4_confusion_tick 0 ⟨2, 4, 7, fun _ => 2, 30⟩).2 (by decide)).2⟩

/-- C8: on every playback-position update, a new position more than 5
seconds behind the recorded one increments the rewind count and emits a
rewind event (otherwise neither happens); in every case the 10-second
bucket of the new position gains one visit, every other bucket is
untouched, the pause count is untouched, and the last position becomes
the new position. -/
theorem claim_C8_time_update (t : Rat) (d : BehaviorTracker.BehaviorData) :
    ((t - d.lastPosition < -5) →
      (BehaviorTracker.handleTimeUpdate t d).1 = some ⟨d.lastPosition, t, d.rewindCount + 1⟩ ∧
      (BehaviorTracker.handleTimeUpdate t d).2.rewindCount = d.rewindCount + 1) ∧
    (¬(t - d.lastPosition < -5) →
      (BehaviorTracker.handleTimeUpdate t d).1 = none ∧
      (BehaviorTracker.handleTimeUpdate t d).2.rewindCount = d.rewindCount) ∧
    (BehaviorTracker.handleTimeUpdate t d).2.segmentWatchTimes (⌊t / 10⌋ * 10) =
      d.segmentWatchTimes (⌊t / 10⌋ * 10) + 1 ∧
    (∀ b : Int, b ≠ ⌊t / 10⌋ * 10 →
      (BehaviorTracker.handleTimeUpdate t d).2.segmentWatchTimes b = d.segmentWatchTimes b) ∧
    (BehaviorTracker.handleTimeUpdate t d).2.lastPosition = t ∧
    (BehaviorTracker.handleTimeUpdate t d).2.pauseCount = d.pauseCount := by
  have hth : BehaviorTracker.rewindThreshold = 5 := rfl
  by_cases hc : t - d.lastPosition < -5
  · refine ⟨fun _ => ⟨?_, ?_⟩, fun h => absurd hc h, ?_, fun b hb => ?_, ?_, ?_⟩
    · simp [BehaviorTracker.handleTimeUpdate, hth, hc]
    · simp [BehaviorTracker.handleTimeUpdate, hth, hc]
    · simp [BehaviorTracker.handleTimeUpdate, hth, hc]
    · simp [BehaviorTracker.handleTimeUpdate, hth, hc, hb]
    · simp [BehaviorTracker.handleTimeUpdate, hth, hc]
    · simp [BehaviorTracker.handleTimeUpdate, hth, hc]
  · refine ⟨fun h => absurd h hc, fun _ => ⟨?_, ?_⟩, ?_, fun b hb => ?_, ?_, ?_⟩
    · simp [BehaviorTracker.handleTimeUpdate, hth, hc]
    · simp [BehaviorTracker.handleTimeUpdate, hth, hc]
    · simp [BehaviorTracker.handleTimeUpdate, hth, hc]
    · simp [BehaviorTracker.handleTimeUpdate, hth, hc, hb]
    · simp [BehaviorTracker.handleTimeUpdate, hth, hc]
    · simp [BehaviorTracker.handleTimeUpdate, hth, hc]

/-- Witness for C8: jumping from position 20 back to position 10 is a
rewind (10 seconds back) and tallies bucket 10. -/
theorem claim_C8_time_update_witness :
    ((10 : Rat) - 20 < -5) ∧
    (BehaviorTracker.handleTimeUpdate 10 ⟨0, 0, 0, fun _ => 0, 20⟩).2.rewindCount = 0 + 1 ∧
    (BehaviorTracker.handleTimeUpdate 10 ⟨0, 0, 0, fun _ => 0, 20⟩).2.segmentWatchTimes
      (⌊(10 : Rat) / 10⌋ * 10) = 0 + 1 ∧
    (BehaviorTracker.handleTimeUpdate 10 ⟨0, 0, 0, fun _ => 0, 20⟩).2.lastPosition = 10 := by
  have h5 : (10 : Rat) - 20 < -5 := by norm_num
  refine ⟨h5, ((claim_C8_time_update 10 ⟨0, 0, 0, fun _ => 0, 20⟩).1 h5).2, ?_, ?_⟩
  · exact (claim_C8_time_update 10 ⟨0, 0, 0, fun _ => 0, 20⟩).2.2.1
  · exact (claim_C8_time_update 10 ⟨0, 0, 0, fun _ => 0, 20⟩).2.2.2.2.1

/-- C9: an UPDATE_SETTINGS request for any key and value, followed by a
GET_SETTINGS request for that key against the resulting store, returns
exactly the written value; the stored value is the written value
itself, whatever was stored before (a full replace, not a merge). -/
theorem claim_C9_settings_read_after_write (env : Env) (k : String) (v : Json) :
    ∃ s2, MessageRouter.handleMessage (Request.updateSettings k v) env =
        Except.ok (Json.obj [("success", Json.bool true)], s2) ∧
      MessageRouter.handleGetSettings (some [k]) s2 = Json.obj [(k, v)] ∧
      StorageManager.getSetting s2 k = some v := by
  refine ⟨StorageManager.updateSetting env.store k v, rfl, ?_, ?_⟩
  · simp [MessageRouter.handleGetSettings, StorageManager.getSetting,
      StorageManager.updateSetting, fieldGet_setField_self]
  · exact fieldGet_setField_self env.store k v

/-- C10: a feature name never stored in the features map reads as
enabled, yet its first TOGGLE_FEATURE stores true and answers
enabled true — leaving the feature enabled — and only a second toggle
stores false. -/
theorem claim_C10_toggle_never_stored (env : Env) (name : String)
    (h : StorageManager.fieldGet (StorageManager.featuresFields env.store) name = none) :
    StorageManager.isFeatureEnabled env.store name = Json.bool true ∧
    ∃ s2, MessageRouter.handleMessage (Request.toggleFeature name) env =
        Except.ok (Json.obj [("featureName", Json.str name), ("enabled", Json.bool true)], s2) ∧
      StorageManager.fieldGet (StorageManager.featuresFields s2) name = some (Json.bool true) ∧
      ∃ s3, MessageRouter.handleMessage (Request.toggleFeature name) ⟨s2, env.net, env.now⟩ =
          Except.ok (Json.obj [("featureName", Json.str name), ("enabled", Json.bool false)], s3) ∧
        StorageManager.fieldGet (StorageManager.featuresFields s3) name =
          some (Json.bool false) := by
  constructor
  · unfold StorageManager.isFeatureEnabled
    cases hf : StorageManager.getSetting env.store "features" with
    | none => rfl
    | some fv =>
        cases fv with
        | obj fs =>
            have hff : StorageManager.featuresFields env.store = fs := by
              simp [StorageManager.featuresFields, StorageManager.getSetting] at hf ⊢
              rw [hf]
            rw [hff] at h
            simp [objGet_eq_none_of_fieldGet_none fs name h]
        | null => rfl
        | bool b => rfl
        | num q => rfl
        | str s => rfl
        | arr xs => rfl
  · refine ⟨StorageManager.updateSetting env.store "features"
      (Json.obj (StorageManager.setField (StorageManager.featuresFields env.store) name
        (Json.bool true))), ?_, ?_, ?_⟩
    · simp [MessageRouter.handleMessage, StorageManager.toggleFeature, h]
    · have hget2 : StorageManager.featuresFields (StorageManager.updateSetting env.store
          "features" (Json.obj (StorageManager.setField (StorageManager.featuresFields env.store)
            name (Json.bool true)))) =
          StorageManager.setField (StorageManager.featuresFields env.store) name
            (Json.bool true) := by
        simp [StorageManager.featuresFields, StorageManager.getSetting,
          StorageManager.updateSetting, fieldGet_setField_self]
      rw [hget2]
      exact fieldGet_setField_self _ _ _
    · have hget2 : StorageManager.featuresFields (StorageManager.updateSetting env.store
          "features" (Json.obj (StorageManager.setField (StorageManager.featuresFields env.store)
            name (Json.bool true)))) =
          StorageManager.setField (StorageManager.featuresFields env.store) name
            (Json.bool true) := by
        simp [StorageManager.featuresFields, StorageManager.getSetting,
          StorageManager.updateSetting, fieldGet_setField_self]
      refine ⟨StorageManager.updateSetting
        (StorageManager.updateSetting env.store "features"
          (Json.obj (StorageManager.setField (StorageManager.featuresFields env.store) name
            (Json.bool true))))
        "features"
        (Json.obj (StorageManager.setField (StorageManager.setField
          (StorageManager.featuresFields env.store) name (Json.bool true)) name
          (Json.bool false))), ?_, ?_⟩
      · simp [MessageRouter.handleMessage, StorageManager.toggleFeature, hget2,
          fieldGet_setField_self, Json.truthy]
      · have hget3 : StorageManager.featuresFields (StorageManager.updateSetting
            (StorageManager.updateSetting env.store "features"
              (Json.obj (StorageManager.setField (StorageManager.featuresFields env.store) name
                (Json.bool true))))
            "features"
            (Json.obj (StorageManager.setField (StorageManager.setField
              (StorageManager.featuresFields env.store) name (Json.bool true)) name
              (Json.bool false)))) =
            StorageManager.setField (StorageManager.setField
              (StorageManager.featuresFields env.store) name (Json.bool true)) name
              (Json.bool false) := by
          simp [StorageManager.featuresFields, StorageManager.getSetting,
            StorageManager.updateSetting, fieldGet_setField_self]
        rw [hget3]
        exact fieldGet_setField_self _ _ _

/-- Witness for C10 in the empty store. -/
theorem claim_C10_toggle_never_stored_witness :
    StorageManager.isFeatureEnabled [] "focusMode" = Json.bool true :=
  (claim_C10_toggle_never_stored ⟨[], Json.null, 0⟩ "focusMode" rfl).1

/-- C5: dispatching a request whose type has no registered handler
yields a failure response carrying the descriptive error the router
raises; the listeners (one-shot and port) are total functions into
response envelopes, so nothing escapes the dispatch as an uncaught
exception.  Stated for every unknown type string and for the concrete
type UNKNOWN_OP on both listeners. -/
theorem claim_C5_unknown_type (t rid : String) (env : Env) :
    Background.onMessage (Request.unknown t) env =
      (⟨false, none, some ("Unknown message type: " ++ t)⟩, env.store) ∧
    Background.onMessage (Request.unknown "UNKNOWN_OP") env =
      (⟨false, none, some "Unknown message type: UNKNOWN_OP"⟩, env.store) ∧
    (Background.onPortMessage (Request.unknown "UNKNOWN_OP") rid env).1 =
      ⟨rid, false, none, some "Unknown message type: UNKNOWN_OP"⟩ := by
  refine ⟨rfl, ?_, ?_⟩ <;> rfl

/-- C7: when the stored Gemini credential is absent or equal to the
placeholder, both the LLM and the VLM call paths fail immediately with
the typed configuration error naming the missing key, and the list of
network requests issued is empty. -/
theorem claim_C7_key_preflight (k : Option String)
    (h : k = none ∨ k = some apiKeyPlaceholder) (prompt frame : String) (net : Json) :
    AIService.callLLM prompt k net = (Except.error AIService.keyConfigError, []) ∧
    AIService.callVLM frame prompt k net = (Except.error AIService.keyConfigError, []) ∧
    containsSubstr AIService.keyConfigError "Gemini API key" = true := by
  have hk : AIService.keyMissing k = true := by
    rcases h with rfl | rfl
    · rfl
    · simp [AIService.keyMissing, apiKeyPlaceholder]
  refine ⟨?_, ?_, by rfl⟩
  · simp [AIService.callLLM, hk]
  · simp [AIService.callVLM, hk]

/-- Witness for C7: the placeholder credential with a concrete prompt,
frame and provider payload. -/
theorem claim_C7_key_preflight_witness :
    AIService.callLLM "p" (some apiKeyPlaceholder) Json.null =
      (Except.error AIService.keyConfigError, []) ∧
    AIService.callVLM "data:image/png;base64,AAAA" "p" (some apiKeyPlaceholder) Json.null =
      (Except.error AIService.keyConfigError, []) :=
  ⟨(claim_C7_key_preflight (some apiKeyPlaceholder) (Or.inr rfl) "p"
      "data:image/png;base64,AAAA" Json.null).1,
   (claim_C7_key_preflight (some apiKeyPlaceholder) (Or.inr rfl) "p"
      "data:image/png;base64,AAAA" Json.null).2.1⟩

/-- C1: the pending promise of a port request settles exactly from the
first incoming message bearing its generated requestId (null or
mismatched messages are ignored and the caller keeps waiting, so a
stream with no matching message settles nothing); the background port
responder always echoes the requestId of the request it answers; and
two concurrent requests with distinct requestIds answered out of order
each resolve with the payload bearing their own requestId. -/
theorem claim_C1_port_correlation :
    (∀ (rid : String) (msgs : List (Option Background.PortMsg)),
      MessageClient.portSettle rid msgs =
        (MessageClient.firstMatch rid msgs).map MessageClient.settleOfMsg) ∧
    (∀ (rid : String) (msgs : List (Option Background.PortMsg)),
      (∀ pm : Background.PortMsg, some pm ∈ msgs → pm.requestId ≠ rid) →
      MessageClient.portSettle rid msgs = none) ∧
    (∀ (req : Request) (rid : String) (env : Env),
      (Background.onPortMessage req rid env).1.requestId = rid) ∧
    (∀ (r1 r2 : String) (m1 m2 : Background.PortMsg),
      r1 ≠ r2 → m1.requestId = r1 → m2.requestId = r2 →
      m1.success = true → m2.success = true →
      MessageClient.portSettle r1 [some m2, some m1] =
        some (MessageClient.Settlement.resolved m1.data) ∧
      MessageClient.portSettle r2 [some m2, some m1] =
        some (MessageClient.Settlement.resolved m2.data)) := by
  refine ⟨?_, ?_, ?_, ?_⟩
  · intro rid msgs
    induction msgs with
    | nil => rfl
    | cons om rest ih =>
        cases om with
        | none => simpa [MessageClient.portSettle, MessageClient.firstMatch] using ih
        | some m =>
            by_cases hm : m.requestId = rid
            · simp [MessageClient.portSettle, MessageClient.firstMatch, hm]
            · simpa [MessageClient.portSettle, MessageClient.firstMatch, hm] using ih
  · intro rid msgs hno
    induction msgs with
    | nil => rfl
    | cons om rest ih =>
        cases om with
        | none =>
            exact (ih (fun pm hpm => hno pm (List.mem_cons_of_mem _ hpm)))
        | some m =>
            have hm : m.requestId ≠ rid := hno m (List.mem_cons_self _ _)
            simpa [MessageClient.portSettle, hm] using
              ih (fun pm hpm => hno pm (List.mem_cons_of_mem _ hpm))
  · intro req rid env
    cases req <;> simp [Background.onPortMessage] <;> split <;> rfl
  · intro r1 r2 m1 m2 hne hm1 hm2 hs1 hs2
    have hne2 : ¬(r2 = r1) := fun h => hne h.symm
    constructor
    · simp [MessageClient.portSettle, MessageClient.settleOfMsg, hm1, hm2, hs1, hne2]
    · simp [MessageClient.portSettle, MessageClient.settleOfMsg, hm2, hs2]

/-- Witness for C1: two concrete concurrent requests a and b whose
responses arrive in the opposite order each resolve with their own
payload, and a stream holding only a mismatched response settles
nothing. -/
theorem claim_C1_port_correlation_witness :
    MessageClient.portSettle "a" [some ⟨"b", true, some (Json.str "B"), none⟩,
        some ⟨"a", true, some (Json.str "A"), none⟩] =
      some (MessageClient.Settlement.resolved (some (Json.str "A"))) ∧
    MessageClient.portSettle "b" [some ⟨"b", true, some (Json.str "B"), none⟩,
        some ⟨"a", true, some (Json.str "A"), none⟩] =
      some (MessageClient.Settlement.resolved (some (Json.str "B"))) ∧
    MessageClient.portSettle "a" [some ⟨"c", true, some (Json.str "C"), none⟩] = none := by
  have h := claim_C1_port_correlation.2.2.2 "a" "b"
    ⟨"a", true, some (Json.str "A"), none⟩ ⟨"b", true, some (Json.str "B"), none⟩
    (by decide) rfl rfl rfl rfl
  refine ⟨h.1, h.2, ?_⟩
  exact claim_C1_port_correlation.2.1 "a" [some ⟨"c", true, some (Json.str "C"), none⟩]
    (by intro pm hpm; simp at hpm; rw [hpm]; decide)

/-- C2: on persistent transient transport errors the one-shot strategy
performs the initial send plus exactly 3 retries with backoffs of 150,
300 and 450 ms (base delay times attempt number), then falls back
exactly once to the port transport, whose failure surfaces the last
transport error; a non-transient error skips retries entirely and goes
straight to the single fallback; a retry that succeeds ends the call
with no fallback. -/
theorem claim_C2_transient_retry_policy :
    (∀ (m1 m2 m3 m4 : String) (rest : List MessageClient.SendOutcome)
        (fb : Except String (Option Json)),
      MessageClient.isTransientErr m1 = true → MessageClient.isTransientErr m2 = true →
      MessageClient.isTransientErr m3 = true → MessageClient.isTransientErr m4 = true →
      MessageClient.sendViaMessage
        (MessageClient.SendOutcome.lastError m1 :: MessageClient.SendOutcome.lastError m2 ::
          MessageClient.SendOutcome.lastError m3 :: MessageClient.SendOutcome.lastError m4 :: rest)
        fb =
      ([MessageClient.TransportEv.send, MessageClient.TransportEv.backoff 150,
        MessageClient.TransportEv.send, MessageClient.TransportEv.backoff 300,
        MessageClient.TransportEv.send, MessageClient.TransportEv.backoff 450,
        MessageClient.TransportEv.send, MessageClient.TransportEv.portFallback],
       match fb with
       | .ok d => .ok d
       | .error _ => .error m4)) ∧
    (∀ (m : String) (rest : List MessageClient.SendOutcome) (fb : Except String (Option Json)),
      MessageClient.isTransientErr m = false →
      MessageClient.sendViaMessage (MessageClient.SendOutcome.lastError m :: rest) fb =
      ([MessageClient.TransportEv.send, MessageClient.TransportEv.portFallback],
       match fb with
       | .ok d => .ok d
       | .error _ => .error m)) ∧
    (∀ (m : String) (r : Response) (rest : List MessageClient.SendOutcome)
        (fb : Except String (Option Json)),
      MessageClient.isTransientErr m = true → r.success = true →
      MessageClient.sendViaMessage
        (MessageClient.SendOutcome.lastError m :: MessageClient.SendOutcome.reply (some r) :: rest)
        fb =
      ([MessageClient.TransportEv.send, MessageClient.TransportEv.backoff 150,
        MessageClient.TransportEv.send], Except.ok r.data)) := by
  refine ⟨?_, ?_, ?_⟩
  · intro m1 m2 m3 m4 rest fb h1 h2 h3 h4
    simp [MessageClient.sendViaMessage, MessageClient.attemptRun, MessageClient.maxRetries,
      MessageClient.baseDelay, h1, h2, h3, h4]
  · intro m rest fb h
    simp [MessageClient.sendViaMessage, MessageClient.attemptRun, MessageClient.maxRetries, h]
  · intro m r rest fb h hs
    simp [MessageClient.sendViaMessage, MessageClient.attemptRun, MessageClient.maxRetries,
      MessageClient.baseDelay, h, hs]

/-- Witness for C2 on the concrete transient message of the host
environment, with a failing fallback. -/
theorem claim_C2_transient_retry_policy_witness :
    MessageClient.sendViaMessage
      (List.replicate 4 (MessageClient.SendOutcome.lastError
        "The message port closed before a response was received"))
      (Except.error "port timeout") =
    ([MessageClient.TransportEv.send, MessageClient.TransportEv.backoff 150,
      MessageClient.TransportEv.send, MessageClient.TransportEv.backoff 300,
      MessageClient.TransportEv.send, MessageClient.TransportEv.backoff 450,
      MessageClient.TransportEv.send, MessageClient.TransportEv.portFallback],
     Except.error "The message port closed before a response was received") ∧
    MessageClient.sendViaMessage
      [MessageClient.SendOutcome.lastError "Some unexpected failure"]
      (Except.error "port timeout") =
    ([MessageClient.TransportEv.send, MessageClient.TransportEv.portFallback],
     Except.error "Some unexpected failure") :=
  ⟨claim_C2_transient_retry_policy.1
      "The message port closed before a response was received"
      "The message port closed before a response was received"
      "The message port closed before a response was received"
      "The message port closed before a response was received"
      [] (Except.error "port timeout") rfl rfl rfl rfl,
   claim_C2_transient_retry_policy.2.1 "Some unexpected failure" []
      (Except.error "port timeout") rfl⟩

/-- C6 counterexample: on a response text holding two complete JSON
objects separated by prose, the extraction routine of the source does
not behave as the claimed first-balanced-substring algorithm: the
greedy span from the first brace to the last brace fails to parse and
the routine degrades to the default, while the first balanced JSON
substring parses fine. -/
theorem claim_C6_extraction_counterexample :
    AIService.llmParsePipeline cegText ≠ specLLMExtraction cegText := by
  have hA : (AIService.llmParsePipeline cegText).objGet "simplified" =
      some (Json.str cegText) := rfl
  have hB : (specLLMExtraction cegText).objGet "simplified" = none := rfl
  intro h
  rw [h, hB] at hA
  exact Option.noConfusion hA

/-- C6 amended: the extraction routine first attempts to parse the
whole text as JSON; on failure it extracts the greedy span of the
text — for the LLM path from the first opening brace to the last
closing brace (else first bracket to last bracket), for the VLM path
from the first opening brace to a later last closing brace — and parses
that; when both fail it returns the minimal default variant (the raw
text as the simplified field with empty definitions for the LLM path,
an empty objects list for the VLM path) instead of failing the call; in
particular the prose-wrapped input of the claim yields the parsed
object with simplified x and empty definitions. -/
theorem claim_C6_extraction_amended :
    (∀ (t : String) (j : Json), jsonParse t = some j →
      AIService.llmParsePipeline t = j ∧ AIService.vlmParsePipeline t = j) ∧
    (∀ (t : String) (sub : List Char) (j : Json), jsonParse t = none →
      greedyJsonMatch t.data = some sub → jsonParse (String.mk sub) = some j →
      AIService.llmParsePipeline t = j) ∧
    (∀ t : String, jsonParse t = none →
      (∀ sub, greedyJsonMatch t.data = some sub → jsonParse (String.mk sub) = none) →
      AIService.llmParsePipeline t = AIService.llmDefault t) ∧
    (∀ (t : String) (s e : Nat) (j : Json), jsonParse t = none →
      t.data.findIdx? (· == '\x7b') = some s → lastIndexOfChar '\x7d' t.data = some e →
      s < e → jsonParse (String.mk ((t.data.drop s).take (e + 1 - s))) = some j →
      AIService.vlmParsePipeline t = j) ∧
    (∀ t : String, jsonParse t = none →
      (∀ s e, t.data.findIdx? (· == '\x7b') = some s → lastIndexOfChar '\x7d' t.data = some e →
        s < e → jsonParse (String.mk ((t.data.drop s).take (e + 1 - s))) = none) →
      AIService.vlmParsePipeline t = AIService.vlmDefault) ∧
    AIService.llmParsePipeline
      "Sure! Here is the result: \x7b\"simplified\":\"x\",\"definitions\":[]\x7d Hope that helps!" =
      Json.obj [("simplified", Json.str "x"), ("definitions", Json.arr [])] := by
  refine ⟨?_, ?_, ?_, ?_, ?_, rfl⟩
  · intro t j h
    exact ⟨by simp [AIService.llmParsePipeline, h], by simp [AIService.vlmParsePipeline, h]⟩
  · intro t sub j h hg hp
    simp [AIService.llmParsePipeline, h, hg, hp]
  · intro t h hfail
    cases hg : greedyJsonMatch t.data with
    | none => simp [AIService.llmParsePipeline, h, hg]
    | some sub => simp [AIService.llmParsePipeline, h, hg, hfail sub hg]
  · intro t s e j h hf hl hse hp
    simp [AIService.vlmParsePipeline, h, hf, hl, hse, hp]
  · intro t h hfail
    cases hf : t.data.findIdx? (· == '\x7b') with
    | none => simp [AIService.vlmParsePipeline, h, hf]
    | some s =>
        cases hl : lastIndexOfChar '\x7d' t.data with
        | none => simp [AIService.vlmParsePipeline, h, hf, hl]
        | some e =>
            by_cases hse : s < e
            · simp [AIService.vlmParsePipeline, h, hf, hl, hse, hfail s e hf hl hse]
            · simp [AIService.vlmParsePipeline, h, hf, hl, hse]

/-- Witness for C6 amended: a parse of an embedded single object, the
degradation on the two-object counterexample text, and the direct
parse of a pure object. -/
theorem claim_C6_extraction_amended_witness :
    AIService.llmParsePipeline "x \x7b\"a\":1\x7d" = Json.obj [("a", Json.int 1)] ∧
    AIService.llmParsePipeline cegText = AIService.llmDefault cegText ∧
    AIService.llmParsePipeline "\x7b\"a\":1\x7d" = Json.obj [("a", Json.int 1)] := by
  refine ⟨?_, ?_, ?_⟩
  · exact claim_C6_extraction_amended.2.1 "x \x7b\"a\":1\x7d" "\x7b\"a\":1\x7d".data
      (Json.obj [("a", Json.int 1)]) rfl rfl rfl
  · refine claim_C6_extraction_amended.2.2.1 cegText rfl ?_
    intro sub hsub
    have hg : greedyJsonMatch cegText.data = some "\x7b\"a\":1\x7d and \x7b\"b\":2\x7d".data := rfl
    rw [hg] at hsub
    cases hsub
    rfl
  · exact (claim_C6_extraction_amended.1 "\x7b\"a\":1\x7d" (Json.obj [("a", Json.int 1)]) rfl).1
